import Mathlib

/-!
Shallow embedding of the sync orchestration engine of the backup repository:
folder-policy destination resolution (src/database/folder_policies.py), the
per-item sync engine (src/sync/sync_service.py), the storage fan-out manager
(src/storage/storage_manager.py), the sync daemon lifecycle and pass logic
(src/sync_daemon.py), the ledger retry endpoints (src/api/routes.py), and the
recursive drive enumeration (src/sync_daemon.py, src/google_sync/drive.py).

External collaborators (the Google Drive API client internals, the rclone
subprocess calls, the SQLite connection) are modelled as oracle values and
functions supplied through environment structures; the control flow of the
embedded functions follows the Python source line by line.
-/

namespace Backup

/-! ### Path splitting

Models Python `str.split('/')`: splits at every separator occurrence,
keeping empty segments, and returns `[""]` for the empty string. -/

/-- Accumulator-style splitter over the character list of a string. -/
def splitCharAux (c : Char) : List Char → List Char → List String
  | [], acc => [String.mk acc.reverse]
  | x :: xs, acc =>
    if x == c then String.mk acc.reverse :: splitCharAux c xs []
    else splitCharAux c xs (x :: acc)

/-- Python `s.split(c)` for a one-character separator. -/
def pySplit (c : Char) (s : String) : List String :=
  splitCharAux c s.toList []

/-! ### Policy Store (src/database/folder_policies.py) -/

/-- Folder destination policy row, as stored in the `sync_folders` table and
returned by `get_all_folder_policies`. -/
structure FolderPolicy where
  folder_id : String
  folder_name : String
  folder_path : String
  destinations : List String
  recursive : Bool
  enabled : Bool
deriving Repr, DecidableEq

/-- Lookup in the `policy_map` dict built by `get_destinations_for_file`:
iterating the policy list in order and keeping only enabled rows, a Python
dict maps each folder name to the last enabled policy bearing that name. -/
def policyMapLookup (policies : List FolderPolicy) (name : String) : Option FolderPolicy :=
  ((policies.filter (fun p => p.enabled)).reverse).find? (fun p => p.folder_name == name)

/-- Path-component preprocessing of `get_destinations_for_file`: split on `/`,
drop a leading `google-drive` segment if present, then a leading `My Drive`
segment if present, then drop the final segment (the file's own name). -/
def pathFolders (file_path : String) : List String :=
  let parts := pySplit '/' file_path
  let parts := if parts.head? == some "google-drive" then parts.tail else parts
  let parts := if parts.head? == some "My Drive" then parts.tail else parts
  parts.dropLast

/-- The descending-index loop of `get_destinations_for_file`: check the folder
segments from the deepest (last) to the shallowest (first); at the first
segment present in the policy map return that policy's destination list. -/
def walkDeepestFirst (pm : String → Option FolderPolicy) : List String → Option (List String)
  | [] => none
  | name :: rest =>
    match walkDeepestFirst pm rest with
    | some d => some d
    | none => (pm name).map (fun p => p.destinations)

/-- Embedding of `folder_policies.get_destinations_for_file` (the database
read behind `get_all_folder_policies` is abstracted into the `policies`
argument). Returns `[]` when no segment matches any enabled policy. -/
def get_destinations_for_file (policies : List FolderPolicy) (file_path : String) :
    List String :=
  (walkDeepestFirst (policyMapLookup policies) (pathFolders file_path)).getD []

/-- Whether some enabled policy carries exactly this folder name. -/
def hasEnabledPolicy (policies : List FolderPolicy) (name : String) : Bool :=
  policies.any (fun p => p.enabled && p.folder_name == name)

/-- Destination resolution as the spec words it: split the path into segments,
discard the recognized root-alias segments and the final segment, walk the
remaining segments in reverse (deepest first), and return the destination
list of the first segment whose folder name has an enabled policy; empty if
no segment matches. Stated independently of the source translation so the
two can be compared. -/
def resolveDestinationsSpec (policies : List FolderPolicy) (file_path : String) :
    List String :=
  match (pathFolders file_path).reverse.find? (fun n => hasEnabledPolicy policies n) with
  | some n => ((policyMapLookup policies n).map (fun p => p.destinations)).getD []
  | none => []

/-! ### Destination Fan-out Manager (src/storage/storage_manager.py) -/

/-- Per-destination upload result dictionary, as produced by the destination
connector (`RcloneManager.upload_file`) or by `StorageManager.upload_file`
itself for an unavailable destination; also reused for the per-destination
entries of the dedup-skip result of `sync_file`. Fields absent from a given
Python dict are `none` / `false`. -/
structure DestEntry where
  success : Bool
  skipped : Bool := false
  reason : Option String := none
  error : Option String := none
  remote_path : Option String := none
  size : Option Nat := none
deriving Repr, DecidableEq

instance : Inhabited DestEntry := ⟨{ success := false }⟩

/-- Result entry recorded for a destination that has no initialized manager. -/
def notAvailableEntry : DestEntry :=
  { success := false, error := some "Destination not available or not enabled" }

/-- Python dict assignment `m[k] = v` on an insertion-ordered association
list: overwrite in place if the key is present, append otherwise. -/
def dictInsert (m : List (String × DestEntry)) (k : String) (v : DestEntry) :
    List (String × DestEntry) :=
  if m.any (fun p => p.1 == k) then m.map (fun p => if p.1 == k then (k, v) else p)
  else m ++ [(k, v)]

/-- Return dictionary of `StorageManager.upload_file`. -/
structure UploadFanout where
  success : Bool
  all_success : Bool
  destinations : List (String × DestEntry)
  local_path : String
  remote_path : String
deriving Repr, DecidableEq

/-- The loop of `StorageManager.upload_file`: for each requested destination,
record a not-available entry when no manager is initialized for it, and
otherwise call the destination connector's upload. The connector
(`RcloneManager.upload_file`) wraps its whole body in try/except — it
catches `subprocess.TimeoutExpired` and every `Exception` — and always
returns a result dict, so the call is modelled as a total function. The
second component accumulates which destination connectors were actually
invoked (instrumentation, not part of the Python return value). -/
def fanoutGo (available : List String) (upload : String → DestEntry) :
    List String → List (String × DestEntry) → List String →
    List (String × DestEntry) × List String
  | [], acc, calls => (acc, calls)
  | d :: rest, acc, calls =>
    if available.contains d then
      fanoutGo available upload rest (dictInsert acc d (upload d)) (calls ++ [d])
    else
      fanoutGo available upload rest (dictInsert acc d notAvailableEntry) calls

/-- Embedding of `StorageManager.upload_file`: fan the upload out to the
requested destinations (all available ones when `destinations` is `None`),
then report overall `success` as "some destination succeeded" and
`all_success` as "every requested destination succeeded". -/
def storage_upload_file (available : List String) (upload : String → DestEntry)
    (local_path remote_path : String) (destinations : Option (List String)) :
    UploadFanout × List String :=
  let dests := destinations.getD available
  match fanoutGo available upload dests [] [] with
  | (results, calls) =>
    ({ success := results.any (fun p => p.2.success),
       all_success := results.all (fun p => p.2.success),
       destinations := results,
       local_path := local_path,
       remote_path := remote_path }, calls)

/-- Per-destination entry the fan-out produces. -/
def fanoutEntry (available : List String) (upload : String → DestEntry)
    (d : String) : DestEntry :=
  if available.contains d then upload d else notAvailableEntry

/-! ### Item Sync Engine (src/sync/sync_service.py, SyncService.sync_file) -/

/-- Item metadata fetched from the source connector
(`GoogleDriveManager.get_file_metadata`). -/
structure FileMeta where
  name : String
  size : Nat
  modifiedTime : String
deriving Repr, DecidableEq

/-- Result dict of `GoogleDriveManager.download_file`; that method catches its
own exceptions and reports them as `success = False`. -/
structure DownloadOutcome where
  success : Bool
  file_path : String := ""
  error : Option String := none
deriving Repr, DecidableEq

/-- One call to `folder_policies.update_file_destination_status` (a Transfer
Ledger upsert). -/
structure LedgerWrite where
  file_id : String
  destination : String
  status : String
  remote_path : Option String
  size : Option Nat
  error_message : Option String
deriving Repr, DecidableEq

/-- Collaborator environment of one `sync_file` call: the source connector's
answers for this item, the folder-policy table, and the destination side.
`meta` is `Except` because `get_file_metadata` re-raises HTTP errors;
`existsAt` models `RcloneManager.check_file_exists`, which never raises;
`download` models `download_file`, which catches its own errors; `upload`
models `RcloneManager.upload_file`, which catches every exception of its
body and always returns a result dict, hence a total function. -/
structure SyncEnv where
  meta : Except String FileMeta
  drivePath : String
  policies : List FolderPolicy
  available : List String
  existsAt : String → Bool × Option Nat
  download : DownloadOutcome
  upload : String → DestEntry

/-- Embedding of `StorageManager.check_file_exists`: `(False, None)` for a
destination with no initialized manager, the connector's probe otherwise. -/
def storage_check_exists (env : SyncEnv) (d : String) : Bool × Option Nat :=
  if env.available.contains d then env.existsAt d else (false, none)

/-- Return dictionary of `SyncService.sync_file`; fields absent from the dict
a given exit path builds are `none`. `deduplication_savings` carries the
byte count (the source renders it through `_format_size` for display). -/
structure SyncFileResult where
  success : Bool
  all_success : Option Bool := none
  file_name : Option String := none
  file_id : Option String := none
  size : Option Nat := none
  remote_path : Option String := none
  destinations : Option (List (String × DestEntry)) := none
  skipped : Option Bool := none
  reason : Option String := none
  deduplication_savings : Option Nat := none
  error : Option String := none
deriving Repr, DecidableEq

/-- Observable side effects of one `sync_file` call: how many source downloads
ran, which destination connectors were invoked for upload, the Transfer
Ledger upserts in order, whether the scratch download file is still present
when the call returns, and the byte count passed to
`dedup_monitor.record_deduplication` (if any). -/
structure SyncTrace where
  downloads : Nat := 0
  uploadCalls : List String := []
  ledger : List LedgerWrite := []
  scratchPresent : Bool := false
  dedupSavedBytes : Option Nat := none
deriving Repr, DecidableEq

/-- Whether the existence probe for one destination reports the file present
with exactly the item's size (the per-destination condition of the
deduplication loop of `sync_file`). -/
def destMatches (env : SyncEnv) (file_size : Nat) (d : String) : Bool :=
  (storage_check_exists env d).1 && (storage_check_exists env d).2 == some file_size

/-- The part of `sync_file` from the deduplication check onward, for an
already-determined destination list. On the dedup hit: no download, no
upload, a `synced` ledger record per destination, and the saved bytes
recorded. Otherwise: download (its failure returns an error result), fan
out the upload, write one ledger record per destination, delete the
scratch file (the inline `os.remove` before the return), and report. No
exception can be raised between the download and the cleanup: the
destination connector and the ledger upsert
(`update_file_destination_status`) each catch their own exceptions. -/
def syncCore (env : SyncEnv) (file_id file_name : String) (file_size : Nat)
    (remote_path : String) (dests : List String) : SyncFileResult × SyncTrace :=
  if dests.all (destMatches env file_size) then
    ({ success := true, file_name := some file_name, file_id := some file_id,
       size := some file_size, remote_path := some remote_path,
       destinations := some (dests.map (fun d =>
         (d, { success := true, skipped := true,
               reason := some "File already exists with same size" }))),
       skipped := some true,
       reason := some "File already exists in all destinations with same size",
       deduplication_savings := some file_size },
     { downloads := 0, uploadCalls := [],
       ledger := dests.map (fun d =>
         { file_id := file_id, destination := d, status := "synced",
           remote_path := some remote_path, size := some file_size,
           error_message := none }),
       scratchPresent := false, dedupSavedBytes := some file_size })
  else
    if env.download.success then
      let local_path := env.download.file_path
      match storage_upload_file env.available env.upload local_path remote_path (some dests) with
      | (up, calls) =>
        let writes := up.destinations.map (fun p =>
          { file_id := file_id, destination := p.1,
            status := if p.2.success then "synced" else "failed",
            remote_path := p.2.remote_path, size := p.2.size,
            error_message := p.2.error })
        if up.success then
          ({ success := true, all_success := some up.all_success,
             file_name := some file_name, file_id := some file_id,
             size := some file_size, remote_path := some remote_path,
             destinations := some up.destinations, skipped := some false },
           { downloads := 1, uploadCalls := calls, ledger := writes,
             scratchPresent := false, dedupSavedBytes := none })
        else
          ({ success := false, error := some "Upload failed to all destinations",
             file_name := some file_name, destinations := some up.destinations },
           { downloads := 1, uploadCalls := calls, ledger := writes,
             scratchPresent := false, dedupSavedBytes := none })
    else
      ({ success := false,
         error := some ("Download failed: " ++ env.download.error.getD "None"),
         file_name := some file_name },
       { downloads := 1, uploadCalls := [], ledger := [],
         scratchPresent := false, dedupSavedBytes := none })

/-- Embedding of `SyncService.sync_file`: fetch metadata (a raise becomes an
error result), build the remote path from the drive hierarchy when none is
given, resolve destinations from the folder policies when none are given
(an empty resolution returns the skipped:no-policy result without touching
the ledger), then run the dedup/download/upload core. -/
def sync_file (env : SyncEnv) (file_id : String) (remotePathArg : Option String)
    (destinationsArg : Option (List String)) : SyncFileResult × SyncTrace :=
  match env.meta with
  | .error e => ({ success := false, file_id := some file_id, error := some e }, {})
  | .ok m =>
    let remote_path :=
      match remotePathArg with
      | some rp => rp
      | none => "google-drive/" ++ env.drivePath
    match destinationsArg with
    | none =>
      let dests := get_destinations_for_file env.policies remote_path
      if dests.isEmpty then
        ({ success := false, file_name := some m.name, file_id := some file_id,
           skipped := some true,
           reason := some "No folder policy configured for this file" }, {})
      else
        syncCore env file_id m.name m.size remote_path dests
    | some dests => syncCore env file_id m.name m.size remote_path dests

/-! ### Sync Daemon lifecycle (src/sync_daemon.py) -/

/-- The two mutable lifecycle flags of `SyncDaemon` (`self.running`,
`self.paused`). `stopped` is `running = false`; `paused` is
`running = true ∧ paused = true`. -/
structure DaemonState where
  running : Bool
  paused : Bool
deriving Repr, DecidableEq

/-- Embedding of `SyncDaemon.start`: no-op returning `False` when already
running, else set `running`, clear `paused`, and launch the loop. -/
def daemon_start (s : DaemonState) : Bool × DaemonState :=
  if s.running then (false, s) else (true, { running := true, paused := false })

/-- Embedding of `SyncDaemon.stop`: no-op returning `False` when not running,
else clear `running` (the `paused` flag is left as is). -/
def daemon_stop (s : DaemonState) : Bool × DaemonState :=
  if s.running then (true, { s with running := false }) else (false, s)

/-- Embedding of `SyncDaemon.pause`: fails when not running, else set
`paused`. -/
def daemon_pause (s : DaemonState) : Bool × DaemonState :=
  if s.running then (true, { s with paused := true }) else (false, s)

/-- Embedding of `SyncDaemon.resume`: fails when not running, else clear
`paused`. -/
def daemon_resume (s : DaemonState) : Bool × DaemonState :=
  if s.running then (true, { s with paused := false }) else (false, s)

/-- What one iteration of `SyncDaemon._run_loop` does, as a function of the
lifecycle flags and of whether the sync interval has elapsed (or no pass
has run yet). -/
inductive LoopAction
  | exitLoop
  | sleepPaused
  | performPass
  | sleepWait
deriving Repr, DecidableEq

/-- Embedding of the `_run_loop` body: exit when `running` is cleared; sleep
without syncing while paused; otherwise perform a pass exactly when the
interval test says to, sleeping briefly otherwise. -/
def run_loop_body (s : DaemonState) (should_sync : Bool) : LoopAction :=
  if !s.running then .exitLoop
  else if s.paused then .sleepPaused
  else if should_sync then .performPass
  else .sleepWait

/-- The per-item check inside `_perform_sync`: the loop over files breaks
before syncing the next item when the daemon was stopped or paused. -/
def sync_item_guard_breaks (s : DaemonState) : Bool :=
  !s.running || s.paused

/-! ### Daemon pass file collection (src/sync_daemon.py, _perform_sync) -/

/-- One row of the configured sync selection (`sync_config.get_sync_config`). -/
structure ConfigItem where
  item_id : String
  item_name : String
  is_folder : Bool
deriving Repr, DecidableEq

/-- The `files_to_sync` list built by `_perform_sync`: first the item ids of
the configured non-folder rows in order, then, for each configured folder
row in order, the ids returned by the recursive expansion, concatenated as
returned. No deduplication is applied anywhere in `_perform_sync`. -/
def collect_files_to_sync (cfg : List ConfigItem) (expand : String → List String) :
    List String :=
  (cfg.filter (fun i => !i.is_folder)).map (fun i => i.item_id) ++
    ((cfg.filter (fun i => i.is_folder)).map (fun i => expand i.item_id)).flatten

/-- The sequence of `sync_file` invocations of one daemon pass: one per entry
of `files_to_sync`, in order, provided the daemon is running and not
paused (the per-item guard breaks the loop otherwise; the lifecycle flags
are held fixed across the pass in this model). -/
def perform_sync_invocations (s : DaemonState) (cfg : List ConfigItem)
    (expand : String → List String) : List String :=
  if s.running && !s.paused then collect_files_to_sync cfg expand else []

/-! ### Tree Walker (src/sync_daemon.py _get_all_files_recursive,
src/google_sync/drive.py list_files / list_all_files) -/

/-- One item of a drive listing page, with the fields the walker reads. -/
structure DriveItem where
  id : String
  name : String
  is_folder : Bool
deriving Repr, DecidableEq

/-- One page returned by `GoogleDriveManager.list_files` for a folder and a
page token. -/
structure DrivePage where
  files : List DriveItem
  next_page_token : Option String
deriving Repr, DecidableEq

/-- Embedding of `SyncDaemon._get_all_files_recursive`: list the folder with
`list_files(page_size=1000, folder_id=...)` — a single request with no
page token, so only the first page — then recurse into sub-folders and
collect the ids of non-folder items in iteration order. The `fuel`
argument bounds the recursion depth (the Python recursion is bounded only
by the tree and the interpreter's recursion limit). -/
def get_all_files_recursive (pages : String → Option String → DrivePage) :
    Nat → String → List String
  | 0, _ => []
  | fuel + 1, folder_id =>
    ((pages folder_id none).files.map (fun it =>
      if it.is_folder then get_all_files_recursive pages fuel it.id else [it.id])).flatten

/-- The token-following loop of `GoogleDriveManager.list_all_files`, with
`fuel` bounding the number of requests (the Python loop runs until a page
has no `next_page_token`). -/
def list_all_files_go (pages : String → Option String → DrivePage) (folder_id : String) :
    Nat → Option String → List DriveItem
  | 0, _ => []
  | fuel + 1, tok =>
    let page := pages folder_id tok
    match page.next_page_token with
    | none => page.files
    | some t => page.files ++ list_all_files_go pages folder_id fuel (some t)

/-- Embedding of `GoogleDriveManager.list_all_files`: drain the pagination of
one folder's listing, starting from no token. -/
def list_all_files (pages : String → Option String → DrivePage) (fuel : Nat)
    (folder_id : String) : List DriveItem :=
  list_all_files_go pages folder_id fuel none

/-! ### Transfer Ledger retry endpoints (src/api/routes.py) -/

/-- One row of the `file_destinations` table, with the columns the retry
endpoints touch. -/
structure LedgerRow where
  file_id : String
  destination : String
  sync_status : String
  error_message : Option String
deriving Repr, DecidableEq

/-- The UPDATE of the `retry_file` endpoint: set status `pending` and clear
the error for every row matching the addressed (file, destination) pair —
the WHERE clause has no status filter. -/
def retry_file_update (tbl : List LedgerRow) (fid dest : String) : List LedgerRow :=
  tbl.map (fun r =>
    if r.file_id == fid && r.destination == dest then
      { r with sync_status := "pending", error_message := none }
    else r)

/-- The rowcount the `retry_file` endpoint bases its success response on:
the number of rows matching the (file, destination) pair. -/
def retry_file_rowcount (tbl : List LedgerRow) (fid dest : String) : Nat :=
  (tbl.filter (fun r => r.file_id == fid && r.destination == dest)).length

/-- The UPDATE of the `retry_all_failed` endpoint: set status `pending` and
clear the error for every row whose status is `failed`. -/
def retry_all_failed_update (tbl : List LedgerRow) : List LedgerRow :=
  tbl.map (fun r =>
    if r.sync_status == "failed" then
      { r with sync_status := "pending", error_message := none }
    else r)

/-! ### Concrete instances used by the theorems below -/

/-- Enabled policies of the spec's inheritance example: folder `A` maps to
`[s3]`, folder `A/B/C` (name `C`) maps to `[b2]`, `A/B` has no policy. -/
def examplePolicies : List FolderPolicy :=
  [{ folder_id := "idA", folder_name := "A", folder_path := "A",
     destinations := ["s3"], recursive := true, enabled := true },
   { folder_id := "idC", folder_name := "C", folder_path := "A/B/C",
     destinations := ["b2"], recursive := true, enabled := true }]

/-- Environment for the dedup-hit scenario: a 1000-byte item at
`A/B/x.txt`, already present with matching size at the one resolved
destination `s3`. -/
def dedupHitEnv : SyncEnv :=
  { meta := .ok { name := "x.txt", size := 1000, modifiedTime := "2026-01-01T00:00:00Z" },
    drivePath := "My Drive/A/B/x.txt",
    policies := examplePolicies,
    available := ["s3"],
    existsAt := fun _ => (true, some 1000),
    download := { success := false },
    upload := fun _ => { success := false, error := some "not reached" } }

/-- Environment for the partial-failure scenario: upload succeeds at
`aws_s3` and fails (with a result dict, not a raise) at `backblaze_b2`. -/
def partialFailEnv : SyncEnv :=
  { meta := .ok { name := "r.pdf", size := 1000, modifiedTime := "2026-01-01T00:00:00Z" },
    drivePath := "My Drive/A/r.pdf",
    policies := examplePolicies,
    available := ["aws_s3", "backblaze_b2"],
    existsAt := fun _ => (false, none),
    download := { success := true, file_path := "/tmp/backup-sync/r.pdf" },
    upload := fun d =>
      if d == "aws_s3" then
        { success := true, remote_path := some "aws-s3:bucket/google-drive/My Drive/A/r.pdf",
          size := some 1000 }
      else
        { success := false, error := some "upload error" } }

/-- Environment for the no-policy scenario: no enabled policy matches any
segment of the item's path. -/
def noPolicyEnv : SyncEnv :=
  { meta := .ok { name := "w.txt", size := 7, modifiedTime := "2026-01-01T00:00:00Z" },
    drivePath := "My Drive/Q/w.txt",
    policies := examplePolicies,
    available := ["s3"],
    existsAt := fun _ => (false, none),
    download := { success := false },
    upload := fun _ => { success := false, error := some "not reached" } }

/-- Environment in which the item is absent at the only destination, the
download succeeds, and the connector upload returns a failure dict. -/
def uploadFailEnv : SyncEnv :=
  { meta := .ok { name := "x.txt", size := 5, modifiedTime := "2026-01-01T00:00:00Z" },
    drivePath := "My Drive/A/B/x.txt",
    policies := examplePolicies,
    available := ["s3"],
    existsAt := fun _ => (false, none),
    download := { success := true, file_path := "/tmp/backup-sync/x.txt" },
    upload := fun _ => { success := false, error := some "upload error" } }

/-- Ledger table with one `synced` and one `failed` row. -/
def retryTable : List LedgerRow :=
  [{ file_id := "f1", destination := "aws_s3", sync_status := "synced", error_message := none },
   { file_id := "f2", destination := "backblaze_b2", sync_status := "failed",
     error_message := some "timeout" }]

/-- Sync selection containing the file `f` explicitly and a folder `F` whose
expansion also yields `f`. -/
def dupConfig : List ConfigItem :=
  [{ item_id := "f", item_name := "f.txt", is_folder := false },
   { item_id := "F", item_name := "Folder", is_folder := true }]

/-- Expansion oracle for `dupConfig`: folder `F` contains exactly the file
`f`. -/
def dupExpand : String → List String :=
  fun fid => if fid == "F" then ["f"] else []

/-- Paginated listing with two pages at the root folder: the first page holds
file `a` and carries a next-page token, the second page holds file `b`. -/
def twoPageListing : String → Option String → DrivePage :=
  fun fid tok =>
    if fid == "root" then
      match tok with
      | none => { files := [{ id := "a", name := "a.txt", is_folder := false }],
                  next_page_token := some "t" }
      | some _ => { files := [{ id := "b", name := "b.txt", is_folder := false }],
                    next_page_token := none }
    else { files := [], next_page_token := none }

/-! ### Helper lemmas -/

/-- The policy map has an entry for a name exactly when some enabled policy
carries that name. -/
theorem policyMapLookup_isSome (ps : List FolderPolicy) (n : String) :
    (policyMapLookup ps n).isSome = hasEnabledPolicy ps n := by
  unfold policyMapLookup hasEnabledPolicy
  rw [Bool.eq_iff_iff, List.find?_isSome, List.any_eq_true]
  constructor
  · rintro ⟨p, hp, hname⟩
    rw [List.mem_reverse, List.mem_filter] at hp
    exact ⟨p, hp.1, by rw [Bool.and_eq_true]; exact ⟨hp.2, hname⟩⟩
  · rintro ⟨p, hp, hen⟩
    rw [Bool.and_eq_true] at hen
    exact ⟨p, by rw [List.mem_reverse, List.mem_filter]; exact ⟨hp, hen.1⟩, hen.2⟩

/-- The descending-index loop equals a `find?` over the reversed segment
list. -/
theorem walkDeepestFirst_eq (pm : String → Option FolderPolicy) (segs : List String) :
    walkDeepestFirst pm segs =
      (segs.reverse.find? (fun n => (pm n).isSome)).bind
        (fun n => (pm n).map (fun p => p.destinations)) := by
  induction segs with
  | nil => rfl
  | cons s rest ih =>
    rw [List.reverse_cons, List.find?_append]
    cases hfind : rest.reverse.find? (fun n => (pm n).isSome) with
    | some n =>
      have hp := List.find?_some hfind
      obtain ⟨q, hq⟩ := Option.isSome_iff_exists.mp hp
      simp [walkDeepestFirst, ih, hfind, hq, Option.or]
    | none =>
      cases hpm : pm s with
      | some q => simp [walkDeepestFirst, ih, hfind, List.find?, hpm, Option.or]
      | none => simp [walkDeepestFirst, ih, hfind, List.find?, hpm, Option.or]

/-- The source resolution function agrees with the spec-worded one. -/
theorem get_destinations_eq_spec (ps : List FolderPolicy) (path : String) :
    get_destinations_for_file ps path = resolveDestinationsSpec ps path := by
  unfold get_destinations_for_file resolveDestinationsSpec
  rw [walkDeepestFirst_eq]
  have hpred : (fun n => (policyMapLookup ps n).isSome) =
      (fun n => hasEnabledPolicy ps n) := by
    funext n
    exact policyMapLookup_isSome ps n
  rw [hpred]
  cases hfind : (pathFolders path).reverse.find? (fun n => hasEnabledPolicy ps n) with
  | some n => simp
  | none => simp

/-! ### C1 -/

/-- C1: destination resolution splits the path into segments, discards the
leading `google-drive` and `My Drive` root aliases and the final segment,
walks the remaining folder segments from deepest to shallowest, and returns
the destination list of the first segment whose folder name has an enabled
policy (closest-ancestor-wins); with enabled policies `[s3]` on `A` and
`[b2]` on `A/B/C`, an item at `A/B/x.txt` resolves to `[s3]` and one at
`A/B/C/y.txt` resolves to `[b2]`; with no matching segment the result is
empty. -/
theorem c1_destination_resolution :
    (∀ (ps : List FolderPolicy) (path : String),
      get_destinations_for_file ps path = resolveDestinationsSpec ps path) ∧
    get_destinations_for_file examplePolicies "google-drive/My Drive/A/B/x.txt" = ["s3"] ∧
    get_destinations_for_file examplePolicies "google-drive/My Drive/A/B/C/y.txt" = ["b2"] ∧
    get_destinations_for_file examplePolicies "google-drive/My Drive/Q/R/z.txt" = [] :=
  ⟨get_destinations_eq_spec, by decide, by decide, by decide⟩

/-! ### C2 -/

/-- C2: when the resolved destination set is non-empty and the existence
probe at every destination reports the file present with exactly the
item's size, `sync_file` performs zero downloads and zero connector
uploads, upserts a `synced` ledger record with the existing remote path
and size for each destination, and reports deduplication savings equal to
the item's size. -/
theorem c2_dedup_hit (env : SyncEnv) (fid : String) (m : FileMeta) (dests : List String)
    (hm : env.meta = Except.ok m)
    (hdests : get_destinations_for_file env.policies ("google-drive/" ++ env.drivePath) = dests)
    (hne : dests ≠ [])
    (hex : ∀ d ∈ dests, storage_check_exists env d = (true, some m.size)) :
    sync_file env fid none none =
      ({ success := true, file_name := some m.name, file_id := some fid,
         size := some m.size, remote_path := some ("google-drive/" ++ env.drivePath),
         destinations := some (dests.map (fun d =>
           (d, { success := true, skipped := true,
                 reason := some "File already exists with same size" }))),
         skipped := some true,
         reason := some "File already exists in all destinations with same size",
         deduplication_savings := some m.size },
       { downloads := 0, uploadCalls := [],
         ledger := dests.map (fun d =>
           { file_id := fid, destination := d, status := "synced",
             remote_path := some ("google-drive/" ++ env.drivePath), size := some m.size,
             error_message := none }),
         scratchPresent := false, dedupSavedBytes := some m.size }) := by
  have hall : dests.all (destMatches env m.size) = true := by
    rw [List.all_eq_true]
    intro d hd
    rw [destMatches, hex d hd]
    simp
  unfold sync_file
  rw [hm]
  simp only [hdests, List.isEmpty_eq_false.mpr hne]
  unfold syncCore
  rw [hall]
  simp

/-- Closed instance of the C2 theorem at `dedupHitEnv`. -/
theorem c2_dedup_hit_witness :
    (sync_file dedupHitEnv "f1" none none).2.downloads = 0 ∧
    (sync_file dedupHitEnv "f1" none none).2.uploadCalls = [] ∧
    (sync_file dedupHitEnv "f1" none none).2.ledger =
      [{ file_id := "f1", destination := "s3", status := "synced",
         remote_path := some "google-drive/My Drive/A/B/x.txt", size := some 1000,
         error_message := none }] ∧
    (sync_file dedupHitEnv "f1" none none).1.success = true ∧
    (sync_file dedupHitEnv "f1" none none).1.deduplication_savings = some 1000 := by
  have h := c2_dedup_hit dedupHitEnv "f1"
    { name := "x.txt", size := 1000, modifiedTime := "2026-01-01T00:00:00Z" } ["s3"]
    rfl (by decide) (by decide) (by decide)
  rw [h]
  exact ⟨rfl, rfl, rfl, rfl, rfl⟩

/-! ### C4 -/

/-- C4: when the resolved destination set is empty and no explicit
destinations are passed, `sync_file` returns the skipped no-policy result
(success flag false, skip marker true, no error field) and leaves the
trace empty: no download, no upload call, and no Transfer Ledger write. -/
theorem c4_no_policy_skip (env : SyncEnv) (fid : String) (m : FileMeta)
    (hm : env.meta = Except.ok m)
    (hres : get_destinations_for_file env.policies ("google-drive/" ++ env.drivePath) = []) :
    sync_file env fid none none =
      ({ success := false, file_name := some m.name, file_id := some fid,
         skipped := some true,
         reason := some "No folder policy configured for this file" },
       {}) := by
  unfold sync_file
  rw [hm]
  simp [hres]

/-- Closed instance of the C4 theorem at `noPolicyEnv`. -/
theorem c4_no_policy_skip_witness :
    (sync_file noPolicyEnv "f1" none none).1.skipped = some true ∧
    (sync_file noPolicyEnv "f1" none none).1.error = none ∧
    (sync_file noPolicyEnv "f1" none none).1.reason =
      some "No folder policy configured for this file" ∧
    (sync_file noPolicyEnv "f1" none none).2.ledger = [] ∧
    (sync_file noPolicyEnv "f1" none none).2.downloads = 0 := by
  have h := c4_no_policy_skip noPolicyEnv "f1"
    { name := "w.txt", size := 7, modifiedTime := "2026-01-01T00:00:00Z" } rfl (by decide)
  rw [h]
  exact ⟨rfl, rfl, rfl, rfl, rfl⟩

/-! ### Fan-out helper lemmas -/

/-- Python dict assignment of a fresh key appends. -/
theorem dictInsert_not_mem (m : List (String × DestEntry)) (k : String) (v : DestEntry)
    (h : ∀ p ∈ m, p.1 ≠ k) : dictInsert m k v = m ++ [(k, v)] := by
  unfold dictInsert
  rw [if_neg]
  intro hc
  rw [List.any_eq_true] at hc
  obtain ⟨p, hp, hpk⟩ := hc
  exact h p hp (by simpa using hpk)

/-- The fan-out loop completes with one entry per requested destination (in
order) and one connector invocation per available requested destination. -/
theorem fanoutGo_complete (available : List String) (upload : String → DestEntry) :
    ∀ (dests : List String), dests.Nodup →
      ∀ (acc : List (String × DestEntry)) (calls : List String),
        (∀ x ∈ dests, ∀ p ∈ acc, p.1 ≠ x) →
        fanoutGo available upload dests acc calls =
          (acc ++ dests.map (fun d => (d, fanoutEntry available upload d)),
           calls ++ dests.filter (fun d => available.contains d)) := by
  intro dests
  induction dests with
  | nil =>
    intro _ acc calls _
    simp [fanoutGo]
  | cons d rest ih =>
    intro hnd acc calls hacc
    have hndr : rest.Nodup := (List.nodup_cons.mp hnd).2
    have hdnr : d ∉ rest := (List.nodup_cons.mp hnd).1
    have hfresh : ∀ p ∈ acc, p.1 ≠ d := fun p hp => hacc d (by simp) p hp
    by_cases hav : available.contains d = true
    · have hacc2 : ∀ x ∈ rest, ∀ p ∈ acc ++ [(d, upload d)], p.1 ≠ x := by
        intro x hx p hp
        rcases List.mem_append.mp hp with hpl | hpr
        · exact hacc x (List.mem_cons_of_mem d hx) p hpl
        · have hpd : p = (d, upload d) := by simpa using hpr
          rw [hpd]
          show d ≠ x
          intro hdx
          subst hdx
          exact hdnr hx
      have hentry : fanoutEntry available upload d = upload d := by
        unfold fanoutEntry
        rw [if_pos hav]
      simp only [fanoutGo, hav, if_true]
      rw [dictInsert_not_mem acc d (upload d) hfresh,
        ih hndr (acc ++ [(d, upload d)]) (calls ++ [d]) hacc2]
      rw [List.map_cons, hentry, List.filter_cons, if_pos hav]
      simp
    · have hacc2 : ∀ x ∈ rest, ∀ p ∈ acc ++ [(d, notAvailableEntry)], p.1 ≠ x := by
        intro x hx p hp
        rcases List.mem_append.mp hp with hpl | hpr
        · exact hacc x (List.mem_cons_of_mem d hx) p hpl
        · have hpd : p = (d, notAvailableEntry) := by simpa using hpr
          rw [hpd]
          show d ≠ x
          intro hdx
          subst hdx
          exact hdnr hx
      have hentry : fanoutEntry available upload d = notAvailableEntry := by
        unfold fanoutEntry
        rw [if_neg hav]
      simp only [fanoutGo, hav, if_false]
      rw [dictInsert_not_mem acc d notAvailableEntry hfresh,
        ih hndr (acc ++ [(d, notAvailableEntry)]) calls hacc2]
      rw [List.map_cons, hentry, List.filter_cons, if_neg hav]
      simp

/-- Unfolding of `storage_upload_file` through the fan-out loop's result. -/
theorem storage_upload_file_eq (available : List String)
    (upload : String → DestEntry) (lp rp : String) (dests : List String)
    (results : List (String × DestEntry)) (calls : List String)
    (hv : fanoutGo available upload dests [] [] = (results, calls)) :
    storage_upload_file available upload lp rp (some dests) =
      ({ success := results.any (fun p => p.2.success),
         all_success := results.all (fun p => p.2.success),
         destinations := results, local_path := lp, remote_path := rp },
       calls) := by
  have hzeta : storage_upload_file available upload lp rp (some dests) =
      match fanoutGo available upload dests [] [] with
      | (results, calls) =>
        ({ success := results.any (fun p => p.2.success),
           all_success := results.all (fun p => p.2.success),
           destinations := results, local_path := lp, remote_path := rp },
         calls) := rfl
  rw [hzeta, hv]

/-- Any-success over a keyed result list equals any-success over the keys. -/
theorem any_map_snd (f : String → DestEntry) (l : List String) :
    (l.map (fun d => (d, f d))).any (fun p => p.2.success) =
      l.any (fun d => (f d).success) := by
  induction l with
  | nil => rfl
  | cons x xs ih => simp [ih]

/-- All-success over a keyed result list equals all-success over the keys. -/
theorem all_map_snd (f : String → DestEntry) (l : List String) :
    (l.map (fun d => (d, f d))).all (fun p => p.2.success) =
      l.all (fun d => (f d).success) := by
  induction l with
  | nil => rfl
  | cons x xs ih => simp [ih]

/-! ### C3 -/

/-- C3: the upload fan-out returns a per-destination result map and a
destination's failure dict does not abort the loop — overall `success` is
"some requested destination succeeded" and `all_success` is "every
requested destination succeeded" — and in the concrete mixed scenario
(upload to `aws_s3` succeeds, upload to `backblaze_b2` returns a failure)
`sync_file` records `aws_s3 = synced` and `backblaze_b2 = failed` in the
ledger and returns `success = true` with `all_success = false`. -/
theorem c3_partial_failure_fanout :
    (∀ (available : List String) (upload : String → DestEntry)
        (lp rp : String) (dests : List String),
      dests.Nodup →
      storage_upload_file available upload lp rp (some dests) =
        ({ success := dests.any (fun d => (fanoutEntry available upload d).success),
           all_success := dests.all (fun d => (fanoutEntry available upload d).success),
           destinations := dests.map (fun d => (d, fanoutEntry available upload d)),
           local_path := lp, remote_path := rp },
         dests.filter (fun d => available.contains d))) ∧
    (sync_file partialFailEnv "f1" none (some ["aws_s3", "backblaze_b2"])).1.success = true ∧
    (sync_file partialFailEnv "f1" none (some ["aws_s3", "backblaze_b2"])).1.all_success =
      some false ∧
    (sync_file partialFailEnv "f1" none (some ["aws_s3", "backblaze_b2"])).2.ledger =
      [{ file_id := "f1", destination := "aws_s3", status := "synced",
         remote_path := some "aws-s3:bucket/google-drive/My Drive/A/r.pdf",
         size := some 1000, error_message := none },
       { file_id := "f1", destination := "backblaze_b2", status := "failed",
         remote_path := none, size := none, error_message := some "upload error" }] := by
  refine ⟨?_, by decide, by decide, by decide⟩
  intro available upload lp rp dests hnd
  have hv := fanoutGo_complete available upload dests hnd [] []
    (by intro x _ p hp; simp at hp)
  rw [List.nil_append, List.nil_append] at hv
  rw [storage_upload_file_eq available upload lp rp dests _ _ hv,
    any_map_snd (fanoutEntry available upload) dests,
    all_map_snd (fanoutEntry available upload) dests]

/-- Closed instance of the general conjunct of the C3 theorem. -/
theorem c3_partial_failure_fanout_witness :
    storage_upload_file ["aws_s3", "backblaze_b2"] partialFailEnv.upload
        "/tmp/backup-sync/r.pdf" "google-drive/My Drive/A/r.pdf"
        (some ["aws_s3", "backblaze_b2"]) =
      ({ success := true, all_success := false,
         destinations :=
           [("aws_s3",
             { success := true,
               remote_path := some "aws-s3:bucket/google-drive/My Drive/A/r.pdf",
               size := some 1000 }),
            ("backblaze_b2", { success := false, error := some "upload error" })],
         local_path := "/tmp/backup-sync/r.pdf",
         remote_path := "google-drive/My Drive/A/r.pdf" },
       ["aws_s3", "backblaze_b2"]) := by
  have h := (c3_partial_failure_fanout).1 ["aws_s3", "backblaze_b2"] partialFailEnv.upload
    "/tmp/backup-sync/r.pdf" "google-drive/My Drive/A/r.pdf" ["aws_s3", "backblaze_b2"]
    (by decide)
  rw [h]
  rfl

/-! ### C10 -/

/-- C10: `upload_file` called with an explicitly empty destination list
performs no connector calls and returns an empty per-destination map with
`success = false` (an existential over zero destinations) and
`all_success = true` (a universal over zero destinations, vacuously),
simultaneously reporting overall failure and all-destination success. -/
theorem c10_empty_destination_list (available : List String)
    (upload : String → DestEntry) (lp rp : String) :
    storage_upload_file available upload lp rp (some []) =
      ({ success := false, all_success := true, destinations := [],
         local_path := lp, remote_path := rp }, []) :=
  rfl

/-! ### C5 -/

/-- The core of `sync_file` leaves no scratch file behind on any of its
paths: the dedup skip and the download failure create none, and both
upload outcomes run the inline `os.remove` before returning. -/
theorem syncCore_scratch_false (env : SyncEnv) (fid fname : String) (fsize : Nat)
    (rp : String) (dests : List String) :
    (syncCore env fid fname fsize rp dests).2.scratchPresent = false := by
  unfold syncCore
  by_cases hall : dests.all (destMatches env fsize) = true
  · simp [hall]
  · by_cases hdl : env.download.success = true
    · rcases hv : fanoutGo env.available env.upload dests [] [] with ⟨results, calls⟩
      have hs := storage_upload_file_eq env.available env.upload env.download.file_path
        rp dests results calls hv
      by_cases hup : results.any (fun p => p.2.success) = true <;>
        simp [hall, hdl, hs, hup]
    · simp [hall, hdl]

/-- C5: on every exit path of a `sync_file` call that reaches the download
step — upload success and upload failure at some or all destinations —
the scratch download file is deleted before the call returns, and the
paths that do not reach the download never create one; no exception can
be raised between the download and the inline cleanup, because the
destination connector (`RcloneManager.upload_file`) and the ledger upsert
each catch their own exceptions, so the exception leg of the claim is
vacuous. Shown for every environment, and concretely at `uploadFailEnv`,
where the download runs and the upload fails at the only destination. -/
theorem c5_scratch_cleanup :
    (∀ (env : SyncEnv) (fid : String) (rpArg : Option String)
        (dArg : Option (List String)),
      (sync_file env fid rpArg dArg).2.scratchPresent = false) ∧
    (sync_file uploadFailEnv "f9" none none).2.downloads = 1 ∧
    (sync_file uploadFailEnv "f9" none none).1.success = false ∧
    (sync_file uploadFailEnv "f9" none none).2.scratchPresent = false := by
  refine ⟨?_, by decide, by decide, by decide⟩
  intro env fid rpArg dArg
  unfold sync_file
  cases hm : env.meta with
  | error e => rfl
  | ok m =>
    cases dArg with
    | some ds => exact syncCore_scratch_false env fid m.name m.size _ ds
    | none =>
      by_cases hemp :
          (get_destinations_for_file env.policies
            (match rpArg with
             | some rp => rp
             | none => "google-drive/" ++ env.drivePath)).isEmpty = true
      · simp only [hemp, if_true]
      · simp only [hemp, if_false]
        exact syncCore_scratch_false env fid m.name m.size _ _

/-! ### C6 -/

/-- C6: the daemon lifecycle follows stopped → running → paused → running →
stopped: `start` is a failing no-op when already running and otherwise
moves to running; `pause` moves running to paused and fails when not
running; `resume` moves paused to running and fails when stopped; `stop`
from running or paused moves to stopped, after which `start` succeeds; and
while paused the loop body never performs a pass and the per-item guard
breaks the item loop, so no item syncs occur. -/
theorem c6_daemon_lifecycle :
    (∀ s : DaemonState, s.running = true → daemon_start s = (false, s)) ∧
    (∀ s : DaemonState, s.running = false →
      daemon_start s = (true, { running := true, paused := false })) ∧
    (∀ s : DaemonState, s.running = true →
      daemon_pause s = (true, { s with paused := true })) ∧
    (∀ s : DaemonState, s.running = false → daemon_pause s = (false, s)) ∧
    (∀ s : DaemonState, s.running = true →
      daemon_resume s = (true, { s with paused := false })) ∧
    (∀ s : DaemonState, s.running = false → daemon_resume s = (false, s)) ∧
    (∀ s : DaemonState, s.running = true →
      (daemon_stop s).1 = true ∧ (daemon_stop s).2.running = false ∧
      (daemon_start (daemon_stop s).2).1 = true) ∧
    (∀ (s : DaemonState) (b : Bool), s.paused = true →
      run_loop_body s b ≠ LoopAction.performPass) ∧
    (∀ s : DaemonState, s.paused = true → sync_item_guard_breaks s = true) := by
  refine ⟨?_, ?_, ?_, ?_, ?_, ?_, ?_, ?_, ?_⟩
  · intro s h
    simp [daemon_start, h]
  · intro s h
    simp [daemon_start, h]
  · intro s h
    simp [daemon_pause, h]
  · intro s h
    simp [daemon_pause, h]
  · intro s h
    simp [daemon_resume, h]
  · intro s h
    simp [daemon_resume, h]
  · intro s h
    simp [daemon_stop, daemon_start, h]
  · intro s b h
    cases hr : s.running <;> simp [run_loop_body, h, hr]
  · intro s h
    simp [sync_item_guard_breaks, h]

/-- Closed instance of the C6 theorem: the canonical walk stopped → running
→ paused → running → stopped, plus no pass while paused. -/
theorem c6_daemon_lifecycle_witness :
    daemon_start { running := false, paused := false } =
      (true, { running := true, paused := false }) ∧
    daemon_pause { running := true, paused := false } =
      (true, { running := true, paused := true }) ∧
    run_loop_body { running := true, paused := true } true ≠ LoopAction.performPass ∧
    daemon_resume { running := true, paused := true } =
      (true, { running := true, paused := false }) ∧
    (daemon_stop { running := true, paused := false }).2.running = false ∧
    (daemon_start (daemon_stop { running := true, paused := false }).2).1 = true := by
  have h := c6_daemon_lifecycle
  exact ⟨h.2.1 _ rfl, h.2.2.1 _ rfl, h.2.2.2.2.2.2.2.1 _ true rfl,
    h.2.2.2.2.1 _ rfl, (h.2.2.2.2.2.2.1 _ rfl).2.1, (h.2.2.2.2.2.2.1 _ rfl).2.2⟩

/-! ### C7 -/

/-- C7 at the failing input: the first row of `retryTable` has status
`synced`, yet `retry_file` addressed at it sets it to `pending` (the SQL
update has no status filter) and its rowcount is positive, so the
endpoint reports success; `retry_all_failed`, by contrast, transitions
exactly the `failed` rows to `pending` with the error cleared and leaves
the `synced` row unchanged. Neither function performs any upload. -/
theorem c7_retry_file_ignores_status :
    retryTable.map (fun r => r.sync_status) = ["synced", "failed"] ∧
    retry_file_update retryTable "f1" "aws_s3" =
      [{ file_id := "f1", destination := "aws_s3", sync_status := "pending",
         error_message := none },
       { file_id := "f2", destination := "backblaze_b2", sync_status := "failed",
         error_message := some "timeout" }] ∧
    retry_file_rowcount retryTable "f1" "aws_s3" = 1 ∧
    retry_all_failed_update retryTable =
      [{ file_id := "f1", destination := "aws_s3", sync_status := "synced",
         error_message := none },
       { file_id := "f2", destination := "backblaze_b2", sync_status := "pending",
         error_message := none }] := by
  decide

/-! ### C8 -/

/-- Counterexample to C8 as stated: with the file `f` configured explicitly
and also reachable through the configured folder `F`, the daemon pass
invokes `sync_file` twice for the same item id in a single pass — the
collected list is not deduplicated. -/
theorem c8_counterexample_duplicate_sync :
    perform_sync_invocations { running := true, paused := false } dupConfig dupExpand =
      ["f", "f"] ∧
    List.count "f" (collect_files_to_sync dupConfig dupExpand) = 2 := by
  decide

/-- C8 (amended): the daemon pass concatenates the explicitly configured
file ids with the recursive folder expansions without deduplicating, so
an item id is invoked once per occurrence: its invocation count is its
count among the explicit files plus the sum of its counts in each
configured folder's expansion. -/
theorem c8_no_dedup_count (cfg : List ConfigItem) (expand : String → List String)
    (x : String) :
    List.count x (collect_files_to_sync cfg expand) =
      List.count x ((cfg.filter (fun i => !i.is_folder)).map (fun i => i.item_id)) +
        (((cfg.filter (fun i => i.is_folder)).map
          (fun i => List.count x (expand i.item_id))).sum) := by
  unfold collect_files_to_sync
  rw [List.count_append]
  congr 1
  have hflat : ∀ (ls : List (List String)),
      List.count x ls.flatten = (ls.map (List.count x)).sum := by
    intro ls
    induction ls with
    | nil => rfl
    | cons l rest ih => simp [List.count_append, ih]
  rw [hflat, List.map_map]
  rfl

/-! ### C9 -/

/-- Counterexample to C9 as stated: at the root folder the listing has two
pages; the daemon's recursive enumeration surfaces only the first page
(item `a`), while draining the pagination as `list_all_files` does also
finds item `b` — so a partial page is surfaced as the final answer. -/
theorem c9_counterexample_partial_page :
    get_all_files_recursive twoPageListing 5 "root" = ["a"] ∧
    (list_all_files twoPageListing 5 "root").map (fun it => it.id) = ["a", "b"] := by
  decide

/-- C9 (amended): the recursive enumeration returns only leaf items — every
returned id belongs to a non-folder item of some folder's listing, never
a container — but it does not drain pagination: it consults only the
first page (no page token) of every folder it visits, as witnessed by its
result depending only on the token-free pages of the listing oracle. -/
theorem c9_leaf_only_first_page :
    (∀ (pages : String → Option String → DrivePage) (fuel : Nat) (fid x : String),
      x ∈ get_all_files_recursive pages fuel fid →
      ∃ (pfid : String) (it : DriveItem),
        it ∈ (pages pfid none).files ∧ it.is_folder = false ∧ it.id = x) ∧
    (∀ (p q : String → Option String → DrivePage) (fuel : Nat) (fid : String),
      (∀ f, p f none = q f none) →
      get_all_files_recursive p fuel fid = get_all_files_recursive q fuel fid) := by
  constructor
  · intro pages fuel
    induction fuel with
    | zero =>
      intro fid x hx
      simp [get_all_files_recursive] at hx
    | succ n ih =>
      intro fid x hx
      simp only [get_all_files_recursive] at hx
      rw [List.mem_flatten] at hx
      obtain ⟨l, hl, hxl⟩ := hx
      rw [List.mem_map] at hl
      obtain ⟨it, hit, rfl⟩ := hl
      by_cases hf : it.is_folder = true
      · rw [if_pos hf] at hxl
        exact ih it.id x hxl
      · rw [if_neg hf] at hxl
        have hx1 : x = it.id := by simpa using hxl
        exact ⟨fid, it, hit, by simpa using hf, hx1.symm⟩
  · intro p q fuel
    induction fuel with
    | zero =>
      intro fid _
      rfl
    | succ n ih =>
      intro fid h
      simp only [get_all_files_recursive]
      rw [h fid]
      congr 1
      apply List.map_congr_left
      intro it _
      by_cases hf : it.is_folder = true
      · rw [if_pos hf, if_pos hf, ih it.id h]
      · rw [if_neg hf, if_neg hf]

/-- Closed instance of the amended C9 theorem at `twoPageListing`: the
returned id `a` is a leaf item of the root folder's first page. -/
theorem c9_leaf_only_first_page_witness :
    ∃ (pfid : String) (it : DriveItem),
      it ∈ (twoPageListing pfid none).files ∧ it.is_folder = false ∧ it.id = "a" := by
  have h := c9_leaf_only_first_page
  exact h.1 twoPageListing 5 "root" "a" (by decide)

end Backup
